import Mathlib

/-!
# Webhook handler of the Telegram bot (`api/index.go`)

A shallow embedding of `Handler` and `getAIResponse` together with the
helpers `sendWelcomeMessage`, `sendErrorMessage` and `sendMessage`.

The Go code is a straight line of calls into libraries (the Telegram client,
`encoding/json`, `net/http`).  Each library call is a field of `Env`: the
embedding takes what the call returns from there and records the call in a
trace of `Effect`s, in program order.  A run of `Handler` is the trace plus
the way the run ended.
-/

namespace TelegramBot

/-! ## Data model -/

/-- Modelled from the spec: the type `tgbotapi.Chat` is declared outside the
repository; the handler reads only its `ID`, an `int64` chat identifier. -/
structure Chat where
  ID : Int
deriving DecidableEq, Repr

/-- Modelled from the spec: the type `tgbotapi.Message` is declared outside the
repository; the handler reads `Chat.ID` and `Text`.  `Chat` is a pointer to a
`tgbotapi.Chat` there, `nil` when the body has no `chat` object, hence an
`Option` here.  `Text` is a Go string, so a message without a text payload (a
photo, a sticker) has `Text = ""`. -/
structure Message where
  Chat : Option Chat
  Text : String
deriving DecidableEq, Repr

/-- Modelled from the spec: the type `tgbotapi.Update` is declared outside the
repository; `Message` is a pointer there (the handler tests it against `nil`),
hence an `Option` here. -/
structure Update where
  Message : Option Message
deriving DecidableEq, Repr

/-- Modelled from the spec: the type `tgbotapi.User`, of which the handler reads
`UserName` for its log line. -/
structure User where
  UserName : String
deriving DecidableEq, Repr

/-- Modelled from the spec: the type `tgbotapi.BotAPI`, the bot client built from
the token; `Self` is the account the token belongs to. -/
structure BotAPI where
  Token : String
  Self : User
deriving DecidableEq, Repr

/-- Modelled from the spec: the value `tgbotapi.NewMessage(chatID, text)` builds:
the chat to write to and the text to write. -/
structure MessageConfig where
  ChatID : Int
  Text : String
deriving DecidableEq, Repr

/-- The function `tgbotapi.NewMessage`. -/
def NewMessage (chatID : Int) (text : String) : MessageConfig :=
  { ChatID := chatID, Text := text }

/-- One element of `AIResponse`: `struct { GeneratedText string }`, read from the
JSON key `generated_text`. -/
structure AIResponseItem where
  GeneratedText : String
deriving DecidableEq, Repr

/-- The type `AIResponse []struct{...}` of the source. -/
abbrev AIResponse := List AIResponseItem

/-- The inner map of the payload: `max_length`, `temperature`, `top_p`. -/
structure Parameters where
  max_length : Int
  temperature : ℚ
  top_p : ℚ
deriving DecidableEq, Repr

/-- The payload map of `getAIResponse`: the keys `inputs` and `parameters`. -/
structure Payload where
  inputs : String
  parameters : Parameters
deriving DecidableEq, Repr

/-- The request handed to `client.Do`: method, URL, the headers set on it and the
marshalled payload as its body. -/
structure Request where
  Method : String
  URL : String
  Header : List (String × String)
  Body : Payload
deriving DecidableEq, Repr

/-- The part of `http.Response` the code reads: the status code and the body. -/
structure Response where
  StatusCode : Int
  Body : String
deriving DecidableEq, Repr

/-- The value `&http.Client{Timeout: ...}`, the timeout in seconds. -/
structure Client where
  Timeout : Nat
deriving DecidableEq, Repr

/-- What a run does to the outside, one constructor per kind of call. -/
inductive Effect where
  /-- A line written with `log.Println`, `log.Printf` or `log.Fatal`. -/
  | log (line : String)
  /-- A call `bot.Send(msg)`: a chat message goes out. -/
  | botSend (bot : BotAPI) (msg : MessageConfig)
  /-- A call `client.Do(req)`: the inference call. -/
  | clientDo (client : Client) (req : Request)
  /-- A call `fmt.Fprintf(w, s)`: text written to the HTTP response. -/
  | write (s : String)
deriving DecidableEq, Repr

/-- How a run of `Handler` ends: it returns to the HTTP server, or `log.Fatal`
ends the process with `os.Exit(1)`, or it leaves `Handler` in a Go run-time
panic (the dereference of a `nil` pointer). -/
inductive Exit where
  | returned
  | osExit (code : Nat)
  | panicked (msg : String)
deriving DecidableEq, Repr

/-- A run of `Handler`: what it did, in order, and how it ended. -/
structure Run where
  trace : List Effect
  exit : Exit
deriving DecidableEq, Repr

/-- What the libraries and the process environment answer.  Errors carry the
text of `err.Error()`. -/
structure Env where
  /-- The value `os.Getenv("TELEGRAM_TOKEN")`. -/
  TELEGRAM_TOKEN : String
  /-- The value `os.Getenv("HF_API_TOKEN")`. -/
  HF_API_TOKEN : String
  /-- The call `tgbotapi.NewBotAPI(token)`. -/
  NewBotAPI : String → Except String BotAPI
  /-- The call `json.NewDecoder(r.Body).Decode(&update)` on a request body. -/
  decodeUpdate : String → Except String Update
  /-- The call `client.Do(req)`: a transport error (a timeout among them) or a
  response. -/
  clientDo : Request → Except String Response
  /-- The call `json.NewDecoder(resp.Body).Decode(&aiResponse)` on a response
  body. -/
  decodeAIResponse : String → Except String AIResponse

/-! ## The program -/

/-- The constant `apiURL` of `getAIResponse`. -/
def apiURL : String := "https://api-inference.huggingface.co/models/google/flan-t5-large"

/-- The constant `http.StatusOK`. -/
def StatusOK : Int := 200

/-- The text `sendWelcomeMessage` sends. -/
def welcomeText : String := "Welcome! Type anything to receive an AI-generated response."

/-- The text `sendErrorMessage` sends. -/
def errorText : String := "Sorry, I couldn\x27t process your request. Please try again later."

/-- The function `sendWelcomeMessage`; the result of `bot.Send` is dropped. -/
def sendWelcomeMessage (bot : BotAPI) (chatID : Int) : List Effect :=
  let msg := NewMessage chatID welcomeText
  [Effect.botSend bot msg]

/-- The function `sendErrorMessage`; the result of `bot.Send` is dropped. -/
def sendErrorMessage (bot : BotAPI) (chatID : Int) : List Effect :=
  let msg := NewMessage chatID errorText
  [Effect.botSend bot msg]

/-- The function `sendMessage`; the result of `bot.Send` is dropped. -/
def sendMessage (bot : BotAPI) (chatID : Int) (text : String) : List Effect :=
  let msg := NewMessage chatID text
  [Effect.botSend bot msg]

/-- Lines 88 to 108 of `getAIResponse`: the payload map, marshalled into the body
of a POST request to `apiURL` with the two headers set.

`json.Marshal` does not fail on a map of a string, an int and two finite
floats, and `http.NewRequest` does not fail on the method `POST` with the
constant URL, so the two error returns behind them are never taken and the
request is built outright. -/
def inferenceRequest (env : Env) (inputText : String) : Request :=
  let payload : Payload :=
    { inputs := inputText
      parameters := { max_length := 150, temperature := 0.7, top_p := 0.85 } }
  { Method := "POST"
    URL := apiURL
    Header := [("Authorization", "Bearer " ++ env.HF_API_TOKEN),
               ("Content-Type", "application/json")]
    Body := payload }

/-- The function `getAIResponse`: the effects of the call, and the text or the
error it returns. -/
def getAIResponse (env : Env) (inputText : String) : List Effect × Except String String :=
  let req := inferenceRequest env inputText
  let client : Client := { Timeout := 30 }
  let tr := [Effect.clientDo client req]
  match env.clientDo req with
  | .error err => (tr, .error ("error sending request: " ++ err))
  | .ok resp =>
    if resp.StatusCode ≠ StatusOK then
      (tr, .error ("non-200 status code: " ++ toString resp.StatusCode
                    ++ ", body: " ++ resp.Body))
    else
      match env.decodeAIResponse resp.Body with
      | .error err => (tr, .error ("error decoding response: " ++ err))
      | .ok aiResponse =>
        -- len(aiResponse) == 0 || aiResponse[0].GeneratedText == ""
        match aiResponse with
        | [] => (tr, .error "no text in AI response")
        | first :: _ =>
          if first.GeneratedText = "" then
            (tr, .error "no text in AI response")
          else
            (tr, .ok first.GeneratedText)

/-- The run-time error of Go on reading a field through a `nil` pointer. -/
def nilDereference : String :=
  "runtime error: invalid memory address or nil pointer dereference"

/-- The function `Handler` on a request with the given body.

The three reads `update.Message.Chat.ID` (lines 52, 60 and 65) go through the
pointer `Chat` without a test: each is evaluated as an argument, before the
call it is passed to, and panics when the pointer is `nil`. -/
def Handler (env : Env) (body : String) : Run :=
  let t0 := [Effect.log "Received a request"]
  match env.NewBotAPI env.TELEGRAM_TOKEN with
  | .error err => { trace := t0 ++ [Effect.log err], exit := .osExit 1 }
  | .ok bot =>
    let t1 := t0 ++ [Effect.log ("Authorized on account " ++ bot.Self.UserName)]
    match env.decodeUpdate body with
    | .error err =>
      { trace := t1 ++ [Effect.log ("Failed to decode update: " ++ err)], exit := .returned }
    | .ok update =>
      match update.Message with
      | none => { trace := t1, exit := .returned }
      | some message =>
        if message.Text = "/start" then
          match message.Chat with
          | none => { trace := t1, exit := .panicked nilDereference }
          | some chat =>
            { trace := t1 ++ sendWelcomeMessage bot chat.ID, exit := .returned }
        else
          match getAIResponse env message.Text with
          | (t2, .error err) =>
            let t3 := t1 ++ t2 ++ [Effect.log ("Error getting AI response: " ++ err)]
            match message.Chat with
            | none => { trace := t3, exit := .panicked nilDereference }
            | some chat =>
              { trace := t3 ++ sendErrorMessage bot chat.ID, exit := .returned }
          | (t2, .ok response) =>
            match message.Chat with
            | none => { trace := t1 ++ t2, exit := .panicked nilDereference }
            | some chat =>
              { trace := t1 ++ t2 ++ sendMessage bot chat.ID response
                          ++ [Effect.write "Update processed"]
                exit := .returned }

/-! ## Reading a trace -/

/-- The chat messages sent, in order. -/
def sent (tr : List Effect) : List MessageConfig :=
  tr.filterMap fun e => match e with
    | .botSend _ msg => some msg
    | _ => none

/-- The inference calls made, in order. -/
def inferenceCalls (tr : List Effect) : List Request :=
  tr.filterMap fun e => match e with
    | .clientDo _ req => some req
    | _ => none

/-- The texts written to the HTTP response, in order. -/
def written (tr : List Effect) : List String :=
  tr.filterMap fun e => match e with
    | .write s => some s
    | _ => none

/-- The calls that leave the process (inference calls and chat messages), in
order; log lines and writes to the HTTP response are dropped. -/
def outbound (tr : List Effect) : List Effect :=
  tr.filter fun e => match e with
    | .botSend _ _ => true
    | .clientDo _ _ => true
    | _ => false

/-- The inference call fails: the call itself errors, or the status is not 200,
or the body does not decode, or it decodes to an empty array, or to an array
whose first element has an empty `GeneratedText`. -/
def InferenceFails (env : Env) (inputText : String) : Prop :=
  (∃ err, env.clientDo (inferenceRequest env inputText) = .error err) ∨
  ∃ resp, env.clientDo (inferenceRequest env inputText) = .ok resp ∧
    (resp.StatusCode ≠ 200 ∨
     (∃ err, env.decodeAIResponse resp.Body = .error err) ∨
     env.decodeAIResponse resp.Body = .ok [] ∨
     ∃ first rest, env.decodeAIResponse resp.Body = .ok (first :: rest) ∧
       first.GeneratedText = "")

/-! ## Sample environments

Concrete answers of the libraries, used to run the definitions on inputs. -/

/-- A bot client as `NewBotAPI` returns it for a valid token. -/
def sampleBot : BotAPI := { Token := "123:abc", Self := { UserName := "sample_bot" } }

/-- An update body with the message text `/start` from chat 7. -/
def startBody : String :=
  "\x7b\"message\":\x7b\"chat\":\x7b\"id\":7\x7d,\"text\":\"/start\"\x7d\x7d"

/-- An update body with the message text `/start now` from chat 7. -/
def startNowBody : String :=
  "\x7b\"message\":\x7b\"chat\":\x7b\"id\":7\x7d,\"text\":\"/start now\"\x7d\x7d"

/-- An update body with the message text `hi` from chat 7. -/
def hiBody : String :=
  "\x7b\"message\":\x7b\"chat\":\x7b\"id\":7\x7d,\"text\":\"hi\"\x7d\x7d"

/-- An update body with a message from chat 7 that has a photo and no text. -/
def photoBody : String :=
  "\x7b\"message\":\x7b\"chat\":\x7b\"id\":7\x7d,\"photo\":[]\x7d\x7d"

/-- An update body without a message object. -/
def noMessageBody : String := "\x7b\"update_id\":1\x7d"

/-- An update body with the message text `/start` and no `chat` object. -/
def startNoChatBody : String := "\x7b\"message\":\x7b\"text\":\"/start\"\x7d\x7d"

/-- An update body with the message text `hi` and no `chat` object. -/
def hiNoChatBody : String := "\x7b\"message\":\x7b\"text\":\"hi\"\x7d\x7d"

/-- What `encoding/json` makes of the sample bodies; any other body is taken as
malformed. -/
def sampleDecodeUpdate (body : String) : Except String Update :=
  if body = startBody then
    .ok { Message := some { Chat := some { ID := 7 }, Text := "/start" } }
  else if body = startNowBody then
    .ok { Message := some { Chat := some { ID := 7 }, Text := "/start now" } }
  else if body = hiBody then .ok { Message := some { Chat := some { ID := 7 }, Text := "hi" } }
  else if body = photoBody then .ok { Message := some { Chat := some { ID := 7 }, Text := "" } }
  else if body = noMessageBody then .ok { Message := none }
  else if body = startNoChatBody then .ok { Message := some { Chat := none, Text := "/start" } }
  else if body = hiNoChatBody then .ok { Message := some { Chat := none, Text := "hi" } }
  else .error "invalid character"

/-- The response body with the one candidate `Hello!`. -/
def helloJSON : String := "[\x7b\"generated_text\":\"Hello!\"\x7d]"

/-- The response body with the candidates `Hello!` and `Bye`. -/
def helloByeJSON : String :=
  "[\x7b\"generated_text\":\"Hello!\"\x7d,\x7b\"generated_text\":\"Bye\"\x7d]"

/-- The response body with an empty first candidate and the second candidate
`hi`. -/
def emptyThenHiJSON : String :=
  "[\x7b\"generated_text\":\"\"\x7d,\x7b\"generated_text\":\"hi\"\x7d]"

/-- What `encoding/json` makes of the sample response bodies: the empty array
decodes to an empty `AIResponse`, an object (`\x7b\x7d` here) does not decode into a
slice; any other body is taken as malformed. -/
def sampleDecodeAIResponse (body : String) : Except String AIResponse :=
  if body = "[]" then .ok []
  else if body = helloJSON then .ok [{ GeneratedText := "Hello!" }]
  else if body = helloByeJSON then .ok [{ GeneratedText := "Hello!" }, { GeneratedText := "Bye" }]
  else if body = emptyThenHiJSON then .ok [{ GeneratedText := "" }, { GeneratedText := "hi" }]
  else if body = "\x7b\x7d" then
    .error "json: cannot unmarshal object into Go value of type handler.AIResponse"
  else .error "invalid character"

/-- An environment in which the bot client is built and every inference call gets
the given answer. -/
def sampleEnv (answer : Except String Response) : Env :=
  { TELEGRAM_TOKEN := "123:abc"
    HF_API_TOKEN := "hf_xyz"
    NewBotAPI := fun _ => .ok sampleBot
    decodeUpdate := sampleDecodeUpdate
    clientDo := fun _ => answer
    decodeAIResponse := sampleDecodeAIResponse }

/-- The inference API answers 200 with the one candidate `Hello!`. -/
def helloEnv : Env := sampleEnv (.ok { StatusCode := 200, Body := helloJSON })

/-- The inference API answers 200 with the candidates `Hello!` and `Bye`. -/
def helloByeEnv : Env := sampleEnv (.ok { StatusCode := 200, Body := helloByeJSON })

/-- The inference API answers 200 with an empty first candidate and the second
candidate `hi`. -/
def emptyThenHiEnv : Env := sampleEnv (.ok { StatusCode := 200, Body := emptyThenHiJSON })

/-- The inference API answers 200 with the empty array. -/
def emptyArrayEnv : Env := sampleEnv (.ok { StatusCode := 200, Body := "[]" })

/-- The inference API answers 200 with the empty object. -/
def emptyObjectEnv : Env := sampleEnv (.ok { StatusCode := 200, Body := "\x7b\x7d" })

/-- The inference API answers 503 with a body that names the cause. -/
def unavailableEnv : Env :=
  sampleEnv (.ok { StatusCode := 503, Body := "Model google/flan-t5-large is currently loading" })

/-- The inference call runs into the client timeout. -/
def timeoutEnv : Env :=
  sampleEnv (.error "context deadline exceeded (Client.Timeout exceeded while awaiting headers)")

/-- An environment in which `NewBotAPI` fails (no token configured). -/
def noTokenEnv : Env :=
  { TELEGRAM_TOKEN := ""
    HF_API_TOKEN := "hf_xyz"
    NewBotAPI := fun _ => .error "Not Found"
    decodeUpdate := sampleDecodeUpdate
    clientDo := fun _ => .error "unreachable"
    decodeAIResponse := sampleDecodeAIResponse }

/-! ## Lemmas on `getAIResponse` -/

/-- The effects of `getAIResponse` are one call `client.Do`, with the request
built from the input text and a client with a timeout of 30 seconds. -/
theorem getAIResponse_trace (env : Env) (inputText : String) :
    (getAIResponse env inputText).1
      = [Effect.clientDo { Timeout := 30 } (inferenceRequest env inputText)] := by
  unfold getAIResponse
  simp only []
  split
  · rfl
  · split
    · rfl
    · split
      · rfl
      · split
        · rfl
        · split <;> rfl

/-- The function `getAIResponse` returns the text `s` exactly when the call
succeeds with status 200 and a body that decodes to a non-empty array whose
first element has the non-empty text `s`. -/
theorem getAIResponse_ok_iff (env : Env) (inputText s : String) :
    (getAIResponse env inputText).2 = .ok s ↔
      ∃ resp first rest,
        env.clientDo (inferenceRequest env inputText) = .ok resp ∧
        resp.StatusCode = 200 ∧
        env.decodeAIResponse resp.Body = .ok (first :: rest) ∧
        first.GeneratedText ≠ "" ∧ s = first.GeneratedText := by
  cases hcall : env.clientDo (inferenceRequest env inputText) with
  | error err => simp [getAIResponse, hcall]
  | ok resp =>
    by_cases hstatus : resp.StatusCode = 200
    · cases hdec : env.decodeAIResponse resp.Body with
      | error err => simp [getAIResponse, hcall, StatusOK, hstatus, hdec]
      | ok aiResponse =>
        cases aiResponse with
        | nil => simp [getAIResponse, hcall, StatusOK, hstatus, hdec]
        | cons first rest =>
          by_cases hempty : first.GeneratedText = ""
          · simp [getAIResponse, hcall, StatusOK, hstatus, hdec, hempty]
          · have hval : (getAIResponse env inputText).2 = .ok first.GeneratedText := by
              simp [getAIResponse, hcall, StatusOK, hstatus, hdec, hempty]
            rw [hval]
            constructor
            · intro h
              exact ⟨resp, first, rest, rfl, hstatus, hdec, hempty, (Except.ok.inj h).symm⟩
            · rintro ⟨resp2, first2, rest2, hresp, -, hdec2, -, hs⟩
              cases hresp
              rw [hdec] at hdec2
              cases hdec2
              rw [hs]
    · simp [getAIResponse, hcall, StatusOK, hstatus]

/-- The function `getAIResponse` returns an error exactly when the inference call
fails in one of the five ways of `InferenceFails`. -/
theorem getAIResponse_error_iff_fails (env : Env) (inputText : String) :
    (∃ err, (getAIResponse env inputText).2 = .error err) ↔ InferenceFails env inputText := by
  unfold getAIResponse InferenceFails
  simp only []
  cases hcall : env.clientDo (inferenceRequest env inputText) with
  | error err => simp
  | ok resp =>
    by_cases hstatus : resp.StatusCode = 200
    · cases hdec : env.decodeAIResponse resp.Body with
      | error err => simp [StatusOK, hstatus, hdec]
      | ok aiResponse =>
        cases aiResponse with
        | nil => simp [StatusOK, hstatus, hdec]
        | cons first rest =>
          by_cases hempty : first.GeneratedText = ""
          · simp [StatusOK, hstatus, hdec, hempty]
          · simp [StatusOK, hstatus, hdec, hempty]
    · simp [StatusOK, hstatus]

/-! ## Lemmas on `Handler`: one per way through it -/

/-- When the bot client cannot be built, `log.Fatal` ends the process before
the body is read. -/
theorem Handler_of_bot_error (env : Env) (body err : String)
    (hbot : env.NewBotAPI env.TELEGRAM_TOKEN = .error err) :
    Handler env body
      = { trace := [Effect.log "Received a request", Effect.log err], exit := .osExit 1 } := by
  simp [Handler, hbot]

/-- When the body does not decode, the run logs the error and returns. -/
theorem Handler_of_decode_error (env : Env) (body err : String) (bot : BotAPI)
    (hbot : env.NewBotAPI env.TELEGRAM_TOKEN = .ok bot)
    (hupd : env.decodeUpdate body = .error err) :
    Handler env body
      = { trace := [Effect.log "Received a request",
                    Effect.log ("Authorized on account " ++ bot.Self.UserName),
                    Effect.log ("Failed to decode update: " ++ err)]
          exit := .returned } := by
  simp [Handler, hbot, hupd]

/-- When the update has no message object, the run returns at once. -/
theorem Handler_of_no_message (env : Env) (body : String) (bot : BotAPI)
    (hbot : env.NewBotAPI env.TELEGRAM_TOKEN = .ok bot)
    (hupd : env.decodeUpdate body = .ok { Message := none }) :
    Handler env body
      = { trace := [Effect.log "Received a request",
                    Effect.log ("Authorized on account " ++ bot.Self.UserName)]
          exit := .returned } := by
  simp [Handler, hbot, hupd]

/-- When the message text is `/start` and the message has a chat, the run sends
the welcome text and returns. -/
theorem Handler_of_start (env : Env) (body : String) (bot : BotAPI) (message : Message)
    (chat : Chat)
    (hbot : env.NewBotAPI env.TELEGRAM_TOKEN = .ok bot)
    (hupd : env.decodeUpdate body = .ok { Message := some message })
    (hchat : message.Chat = some chat)
    (htext : message.Text = "/start") :
    Handler env body
      = { trace := [Effect.log "Received a request",
                    Effect.log ("Authorized on account " ++ bot.Self.UserName),
                    Effect.botSend bot (NewMessage chat.ID welcomeText)]
          exit := .returned } := by
  simp [Handler, hbot, hupd, htext, hchat, sendWelcomeMessage]

/-- When the message text is `/start` and the message has no chat, the run
panics at line 52, before anything is sent. -/
theorem Handler_of_start_no_chat (env : Env) (body : String) (bot : BotAPI)
    (message : Message)
    (hbot : env.NewBotAPI env.TELEGRAM_TOKEN = .ok bot)
    (hupd : env.decodeUpdate body = .ok { Message := some message })
    (hchat : message.Chat = none)
    (htext : message.Text = "/start") :
    Handler env body
      = { trace := [Effect.log "Received a request",
                    Effect.log ("Authorized on account " ++ bot.Self.UserName)]
          exit := .panicked nilDereference } := by
  simp [Handler, hbot, hupd, htext, hchat]

/-- When the message text is not `/start`, the message has a chat and
`getAIResponse` returns an error, the run makes the inference call, logs the
error, sends the apology and returns. -/
theorem Handler_of_inference_error (env : Env) (body err : String) (bot : BotAPI)
    (message : Message) (chat : Chat)
    (hbot : env.NewBotAPI env.TELEGRAM_TOKEN = .ok bot)
    (hupd : env.decodeUpdate body = .ok { Message := some message })
    (hchat : message.Chat = some chat)
    (htext : message.Text ≠ "/start")
    (herr : (getAIResponse env message.Text).2 = .error err) :
    Handler env body
      = { trace := [Effect.log "Received a request",
                    Effect.log ("Authorized on account " ++ bot.Self.UserName),
                    Effect.clientDo { Timeout := 30 } (inferenceRequest env message.Text),
                    Effect.log ("Error getting AI response: " ++ err),
                    Effect.botSend bot (NewMessage chat.ID errorText)]
          exit := .returned } := by
  have htr := getAIResponse_trace env message.Text
  rcases hres : getAIResponse env message.Text with ⟨t2, r⟩
  rw [hres] at htr herr
  simp only at htr herr
  subst htr herr
  simp [Handler, hbot, hupd, htext, hres, hchat, sendErrorMessage]

/-- When the message text is not `/start`, the message has no chat and
`getAIResponse` returns an error, the run makes the inference call, logs the
error and panics at line 60, before the apology is sent. -/
theorem Handler_of_inference_error_no_chat (env : Env) (body err : String) (bot : BotAPI)
    (message : Message)
    (hbot : env.NewBotAPI env.TELEGRAM_TOKEN = .ok bot)
    (hupd : env.decodeUpdate body = .ok { Message := some message })
    (hchat : message.Chat = none)
    (htext : message.Text ≠ "/start")
    (herr : (getAIResponse env message.Text).2 = .error err) :
    Handler env body
      = { trace := [Effect.log "Received a request",
                    Effect.log ("Authorized on account " ++ bot.Self.UserName),
                    Effect.clientDo { Timeout := 30 } (inferenceRequest env message.Text),
                    Effect.log ("Error getting AI response: " ++ err)]
          exit := .panicked nilDereference } := by
  have htr := getAIResponse_trace env message.Text
  rcases hres : getAIResponse env message.Text with ⟨t2, r⟩
  rw [hres] at htr herr
  simp only at htr herr
  subst htr herr
  simp [Handler, hbot, hupd, htext, hres, hchat]

/-- When the message text is not `/start`, the message has a chat and
`getAIResponse` returns a text, the run makes the inference call, sends the
text, writes the acknowledgment and returns. -/
theorem Handler_of_inference_ok (env : Env) (body response : String) (bot : BotAPI)
    (message : Message) (chat : Chat)
    (hbot : env.NewBotAPI env.TELEGRAM_TOKEN = .ok bot)
    (hupd : env.decodeUpdate body = .ok { Message := some message })
    (hchat : message.Chat = some chat)
    (htext : message.Text ≠ "/start")
    (hok : (getAIResponse env message.Text).2 = .ok response) :
    Handler env body
      = { trace := [Effect.log "Received a request",
                    Effect.log ("Authorized on account " ++ bot.Self.UserName),
                    Effect.clientDo { Timeout := 30 } (inferenceRequest env message.Text),
                    Effect.botSend bot (NewMessage chat.ID response),
                    Effect.write "Update processed"]
          exit := .returned } := by
  have htr := getAIResponse_trace env message.Text
  rcases hres : getAIResponse env message.Text with ⟨t2, r⟩
  rw [hres] at htr hok
  simp only at htr hok
  subst htr hok
  simp [Handler, hbot, hupd, htext, hres, hchat, sendMessage]

/-- When the message text is not `/start`, the message has no chat and
`getAIResponse` returns a text, the run makes the inference call and panics at
line 65, before the text is sent. -/
theorem Handler_of_inference_ok_no_chat (env : Env) (body response : String) (bot : BotAPI)
    (message : Message)
    (hbot : env.NewBotAPI env.TELEGRAM_TOKEN = .ok bot)
    (hupd : env.decodeUpdate body = .ok { Message := some message })
    (hchat : message.Chat = none)
    (htext : message.Text ≠ "/start")
    (hok : (getAIResponse env message.Text).2 = .ok response) :
    Handler env body
      = { trace := [Effect.log "Received a request",
                    Effect.log ("Authorized on account " ++ bot.Self.UserName),
                    Effect.clientDo { Timeout := 30 } (inferenceRequest env message.Text)]
          exit := .panicked nilDereference } := by
  have htr := getAIResponse_trace env message.Text
  rcases hres : getAIResponse env message.Text with ⟨t2, r⟩
  rw [hres] at htr hok
  simp only at htr hok
  subst htr hok
  simp [Handler, hbot, hupd, htext, hres, hchat]

/-! ## The claims -/

/-- C1: `getAIResponse` returns an error if and only if the outbound call
errored, or the status is not 200, or the body does not decode, or the decoded
array is empty, or its first element has an empty `generated_text`
(`InferenceFails`); and it returns a text, no error, if and only if none of
these holds. -/
theorem getAIResponse_error_iff (env : Env) (inputText : String) :
    ((∃ err, (getAIResponse env inputText).2 = .error err) ↔ InferenceFails env inputText) ∧
    ((∃ s, (getAIResponse env inputText).2 = .ok s) ↔ ¬ InferenceFails env inputText) := by
  refine ⟨getAIResponse_error_iff_fails env inputText, ?_⟩
  rw [← getAIResponse_error_iff_fails]
  cases (getAIResponse env inputText).2 with
  | error err => simp
  | ok s => simp

/-- C2, as the code has it: for an event whose message carries a chat and has a
text other than `/start`, when the inference call answers with status 200 and
a body that decodes to a non-empty array whose first element has a non-empty
`generated_text`, the handler sends exactly one message: that text,
unchanged, to the chat of the event, whatever the rest of the array holds. -/
theorem Handler_relays_first_generated_text
    (env : Env) (body : String) (bot : BotAPI) (message : Message) (chat : Chat)
    (resp : Response) (first : AIResponseItem) (rest : List AIResponseItem)
    (hbot : env.NewBotAPI env.TELEGRAM_TOKEN = .ok bot)
    (hupd : env.decodeUpdate body = .ok { Message := some message })
    (hchat : message.Chat = some chat)
    (htext : message.Text ≠ "/start")
    (hcall : env.clientDo (inferenceRequest env message.Text) = .ok resp)
    (hstatus : resp.StatusCode = 200)
    (hdec : env.decodeAIResponse resp.Body = .ok (first :: rest))
    (hne : first.GeneratedText ≠ "") :
    sent (Handler env body).trace
      = [{ ChatID := chat.ID, Text := first.GeneratedText }] := by
  have hok : (getAIResponse env message.Text).2 = .ok first.GeneratedText :=
    (getAIResponse_ok_iff env message.Text first.GeneratedText).2
      ⟨resp, first, rest, hcall, hstatus, hdec, hne, rfl⟩
  rw [Handler_of_inference_ok env body first.GeneratedText bot message chat hbot hupd hchat
    htext hok]
  rfl

/-- Witness of C2 as amended: the response with the one candidate `Hello!` yields
the reply `Hello!` to chat 7, and so does the response with a second
candidate `Bye`. -/
theorem Handler_relays_first_generated_text_witness :
    sent (Handler helloEnv hiBody).trace = [{ ChatID := 7, Text := "Hello!" }] ∧
    sent (Handler helloByeEnv hiBody).trace = [{ ChatID := 7, Text := "Hello!" }] :=
  ⟨Handler_relays_first_generated_text helloEnv hiBody sampleBot
      { Chat := some { ID := 7 }, Text := "hi" } { ID := 7 }
      { StatusCode := 200, Body := helloJSON }
      { GeneratedText := "Hello!" } [] rfl rfl rfl (by decide) rfl rfl rfl (by decide),
   Handler_relays_first_generated_text helloByeEnv hiBody sampleBot
      { Chat := some { ID := 7 }, Text := "hi" } { ID := 7 }
      { StatusCode := 200, Body := helloByeJSON }
      { GeneratedText := "Hello!" } [{ GeneratedText := "Bye" }]
      rfl rfl rfl (by decide) rfl rfl rfl (by decide)⟩

/-- Counterexample to C2 as stated: the text `hi` in a message without a `chat`
object, with the bot client constructed and the status-200 answer that decodes
to the one candidate `Hello!`: the handler makes the inference call, panics at
line 65 and sends nothing. -/
theorem Handler_generated_text_not_sent_without_chat :
    helloEnv.NewBotAPI helloEnv.TELEGRAM_TOKEN = .ok sampleBot ∧
    helloEnv.decodeUpdate hiNoChatBody
      = .ok { Message := some { Chat := none, Text := "hi" } } ∧
    helloEnv.clientDo (inferenceRequest helloEnv "hi")
      = .ok { StatusCode := 200, Body := helloJSON } ∧
    helloEnv.decodeAIResponse helloJSON = .ok [{ GeneratedText := "Hello!" }] ∧
    sent (Handler helloEnv hiNoChatBody).trace = [] ∧
    (¬ ∃ chatID, sent (Handler helloEnv hiNoChatBody).trace
        = [{ ChatID := chatID, Text := "Hello!" }]) ∧
    (Handler helloEnv hiNoChatBody).exit = .panicked nilDereference := by
  refine ⟨rfl, rfl, rfl, rfl, rfl, ?_, rfl⟩
  rintro ⟨chatID, h⟩
  have hsent : sent (Handler helloEnv hiNoChatBody).trace = [] := rfl
  rw [hsent] at h
  exact List.cons_ne_nil _ _ h.symm

/-- C3, as the code has it: with the bot client constructed, for an event whose
message carries a chat and has the text `/start` exactly, the handler sends
exactly one message, the fixed welcome text, to the chat of the event, and
makes no inference call. -/
theorem Handler_start_sends_welcome
    (env : Env) (body : String) (bot : BotAPI) (message : Message) (chat : Chat)
    (hbot : env.NewBotAPI env.TELEGRAM_TOKEN = .ok bot)
    (hupd : env.decodeUpdate body = .ok { Message := some message })
    (hchat : message.Chat = some chat)
    (htext : message.Text = "/start") :
    sent (Handler env body).trace
      = [{ ChatID := chat.ID
           Text := "Welcome! Type anything to receive an AI-generated response." }] ∧
    inferenceCalls (Handler env body).trace = [] := by
  rw [Handler_of_start env body bot message chat hbot hupd hchat htext]
  exact ⟨rfl, rfl⟩

/-- Witness of C3 as amended: `/start` from chat 7. -/
theorem Handler_start_sends_welcome_witness :
    sent (Handler helloEnv startBody).trace
      = [{ ChatID := 7
           Text := "Welcome! Type anything to receive an AI-generated response." }] ∧
    inferenceCalls (Handler helloEnv startBody).trace = [] :=
  Handler_start_sends_welcome helloEnv startBody sampleBot
    { Chat := some { ID := 7 }, Text := "/start" } { ID := 7 } rfl rfl rfl rfl

/-- Counterexample to C3 as stated: the text `/start` in a message without a
`chat` object, with the bot client constructed: the handler panics at line 52
and sends nothing. -/
theorem Handler_welcome_not_sent_without_chat :
    helloEnv.NewBotAPI helloEnv.TELEGRAM_TOKEN = .ok sampleBot ∧
    helloEnv.decodeUpdate startNoChatBody
      = .ok { Message := some { Chat := none, Text := "/start" } } ∧
    sent (Handler helloEnv startNoChatBody).trace = [] ∧
    (¬ ∃ chatID, sent (Handler helloEnv startNoChatBody).trace
        = [{ ChatID := chatID
             Text := "Welcome! Type anything to receive an AI-generated response." }]) ∧
    (Handler helloEnv startNoChatBody).exit = .panicked nilDereference := by
  refine ⟨rfl, rfl, rfl, ?_, rfl⟩
  rintro ⟨chatID, h⟩
  have hsent : sent (Handler helloEnv startNoChatBody).trace = [] := rfl
  rw [hsent] at h
  exact List.cons_ne_nil _ _ h.symm

/-- C4, as the code has it: for an event whose message carries a chat and has a
text other than `/start`, and any two failing inference outcomes
(`InferenceFails`: a transport error or timeout, a status other than 200 with
any body, a body that does not decode such as an object, an empty array, an
empty first text), the handler sends the same reply in both runs: exactly the
fixed apology text, to the chat of the event; and both runs return normally. -/
theorem Handler_apology_independent_of_failure
    (env₁ env₂ : Env) (body : String) (bot₁ bot₂ : BotAPI) (message : Message) (chat : Chat)
    (hbot₁ : env₁.NewBotAPI env₁.TELEGRAM_TOKEN = .ok bot₁)
    (hbot₂ : env₂.NewBotAPI env₂.TELEGRAM_TOKEN = .ok bot₂)
    (hupd₁ : env₁.decodeUpdate body = .ok { Message := some message })
    (hupd₂ : env₂.decodeUpdate body = .ok { Message := some message })
    (hchat : message.Chat = some chat)
    (htext : message.Text ≠ "/start")
    (hfail₁ : InferenceFails env₁ message.Text)
    (hfail₂ : InferenceFails env₂ message.Text) :
    sent (Handler env₁ body).trace
      = [{ ChatID := chat.ID
           Text := "Sorry, I couldn\x27t process your request. Please try again later." }] ∧
    sent (Handler env₂ body).trace = sent (Handler env₁ body).trace ∧
    (Handler env₁ body).exit = .returned ∧
    (Handler env₂ body).exit = .returned := by
  obtain ⟨err₁, herr₁⟩ := (getAIResponse_error_iff_fails env₁ message.Text).2 hfail₁
  obtain ⟨err₂, herr₂⟩ := (getAIResponse_error_iff_fails env₂ message.Text).2 hfail₂
  rw [Handler_of_inference_error env₁ body err₁ bot₁ message chat hbot₁ hupd₁ hchat htext herr₁,
    Handler_of_inference_error env₂ body err₂ bot₂ message chat hbot₂ hupd₂ hchat htext herr₂]
  exact ⟨rfl, rfl, rfl, rfl⟩

/-- Witness of C4 as amended: the empty object against a timeout, for the text
`hi` from chat 7. -/
theorem Handler_apology_independent_of_failure_witness :
    sent (Handler emptyObjectEnv hiBody).trace
      = [{ ChatID := 7
           Text := "Sorry, I couldn\x27t process your request. Please try again later." }] ∧
    sent (Handler timeoutEnv hiBody).trace = sent (Handler emptyObjectEnv hiBody).trace ∧
    (Handler emptyObjectEnv hiBody).exit = .returned ∧
    (Handler timeoutEnv hiBody).exit = .returned :=
  Handler_apology_independent_of_failure emptyObjectEnv timeoutEnv hiBody sampleBot sampleBot
    { Chat := some { ID := 7 }, Text := "hi" } { ID := 7 } rfl rfl rfl rfl rfl (by decide)
    (Or.inr ⟨{ StatusCode := 200, Body := "\x7b\x7d" }, rfl, Or.inr (Or.inl ⟨_, rfl⟩)⟩)
    (Or.inl ⟨_, rfl⟩)

/-- Counterexample to C4 as stated: the text `hi` in a message without a `chat`
object, with the bot client constructed, once with the inference call timing
out and once with the empty array as its answer: both inference outcomes
fail, and in both runs the handler panics at line 60, sends no apology and
does not return normally. -/
theorem Handler_apology_not_sent_without_chat :
    timeoutEnv.decodeUpdate hiNoChatBody
      = .ok { Message := some { Chat := none, Text := "hi" } } ∧
    emptyArrayEnv.decodeUpdate hiNoChatBody
      = .ok { Message := some { Chat := none, Text := "hi" } } ∧
    InferenceFails timeoutEnv "hi" ∧
    InferenceFails emptyArrayEnv "hi" ∧
    sent (Handler timeoutEnv hiNoChatBody).trace = [] ∧
    sent (Handler emptyArrayEnv hiNoChatBody).trace = [] ∧
    (Handler timeoutEnv hiNoChatBody).exit ≠ .returned ∧
    (Handler emptyArrayEnv hiNoChatBody).exit ≠ .returned :=
  ⟨rfl, rfl, Or.inl ⟨_, rfl⟩,
   Or.inr ⟨{ StatusCode := 200, Body := "[]" }, rfl, Or.inr (Or.inr (Or.inl rfl))⟩,
   rfl, rfl, by decide, by decide⟩

/-- C5, as the code has it: for an event without a message object the handler
sends no reply and makes no inference call. -/
theorem Handler_no_message_ignored
    (env : Env) (body : String)
    (hupd : env.decodeUpdate body = .ok { Message := none }) :
    sent (Handler env body).trace = [] ∧ inferenceCalls (Handler env body).trace = [] := by
  cases hbot : env.NewBotAPI env.TELEGRAM_TOKEN with
  | error e =>
    rw [Handler_of_bot_error env body e hbot]
    exact ⟨rfl, rfl⟩
  | ok bot =>
    rw [Handler_of_no_message env body bot hbot hupd]
    exact ⟨rfl, rfl⟩

/-- Witness of C5 as amended: an update that has only an `update_id`. -/
theorem Handler_no_message_ignored_witness :
    sent (Handler helloEnv noMessageBody).trace = [] ∧
    inferenceCalls (Handler helloEnv noMessageBody).trace = [] :=
  Handler_no_message_ignored helloEnv noMessageBody rfl

/-- Counterexample to C5 as stated: a photo-only message (a message object with
empty text) from chat 7 is not ignored: the handler makes an inference call
with empty `inputs` and sends a reply. -/
theorem Handler_empty_text_not_ignored :
    helloEnv.NewBotAPI helloEnv.TELEGRAM_TOKEN = .ok sampleBot ∧
    helloEnv.decodeUpdate photoBody
      = .ok { Message := some { Chat := some { ID := 7 }, Text := "" } } ∧
    ¬ (sent (Handler helloEnv photoBody).trace = [] ∧
        inferenceCalls (Handler helloEnv photoBody).trace = []) ∧
    inferenceCalls (Handler helloEnv photoBody).trace = [inferenceRequest helloEnv ""] ∧
    sent (Handler helloEnv photoBody).trace = [{ ChatID := 7, Text := "Hello!" }] := by
  refine ⟨rfl, rfl, ?_, rfl, rfl⟩
  intro h
  have hsent : sent (Handler helloEnv photoBody).trace
      = [{ ChatID := 7, Text := "Hello!" }] := rfl
  rw [hsent] at h
  exact List.cons_ne_nil _ _ h.1

/-- C6 at the failing inputs: the body decodes and the run ends in a reply the
user sees, yet nothing is written to the HTTP response: on `/start` the
welcome text is sent, on a failed inference call the apology is sent, and in
both runs the acknowledgment is missing; the run with a generated reply does
write it. -/
theorem Handler_acknowledgment_skipped_on_early_return :
    (sent (Handler helloEnv startBody).trace = [{ ChatID := 7, Text := welcomeText }] ∧
      written (Handler helloEnv startBody).trace = []) ∧
    (sent (Handler timeoutEnv hiBody).trace = [{ ChatID := 7, Text := errorText }] ∧
      written (Handler timeoutEnv hiBody).trace = []) ∧
    (sent (Handler helloEnv hiBody).trace = [{ ChatID := 7, Text := "Hello!" }] ∧
      written (Handler helloEnv hiBody).trace = ["Update processed"]) :=
  ⟨⟨rfl, rfl⟩, ⟨rfl, rfl⟩, ⟨rfl, rfl⟩⟩

/-- C7: with the bot client constructed, for an event whose message text differs
from `/start` the handler issues exactly one inference call; its body has
`inputs` equal to the whole message text and `parameters` equal to
`max_length` 150, `temperature` 0.7, `top_p` 0.85.  The welcome branch is
not taken: the first call that leaves the process is the inference call, and
when the message carries a chat the one message that follows it is the reply
of the free-text path (the generated text, or the apology). -/
theorem Handler_nontrigger_one_inference_call
    (env : Env) (body : String) (bot : BotAPI) (message : Message)
    (hbot : env.NewBotAPI env.TELEGRAM_TOKEN = .ok bot)
    (hupd : env.decodeUpdate body = .ok { Message := some message })
    (htext : message.Text ≠ "/start") :
    inferenceCalls (Handler env body).trace
      = [{ Method := "POST"
           URL := "https://api-inference.huggingface.co/models/google/flan-t5-large"
           Header := [("Authorization", "Bearer " ++ env.HF_API_TOKEN),
                      ("Content-Type", "application/json")]
           Body := { inputs := message.Text
                     parameters := { max_length := 150, temperature := 0.7, top_p := 0.85 } } }] ∧
    ∃ rest,
      outbound (Handler env body).trace
        = Effect.clientDo { Timeout := 30 } (inferenceRequest env message.Text) :: rest ∧
      ∀ chat, message.Chat = some chat →
        ∃ reply,
          rest = [Effect.botSend bot { ChatID := chat.ID, Text := reply }] ∧
          ((getAIResponse env message.Text).2 = .ok reply ∨
            ((∃ err, (getAIResponse env message.Text).2 = .error err) ∧ reply = errorText)) := by
  cases hchat : message.Chat with
  | none =>
    cases hres : (getAIResponse env message.Text).2 with
    | error err =>
      rw [Handler_of_inference_error_no_chat env body err bot message hbot hupd hchat htext hres]
      exact ⟨rfl, [], rfl, fun chat h => by cases h⟩
    | ok response =>
      rw [Handler_of_inference_ok_no_chat env body response bot message hbot hupd hchat htext
        hres]
      exact ⟨rfl, [], rfl, fun chat h => by cases h⟩
  | some chat =>
    cases hres : (getAIResponse env message.Text).2 with
    | error err =>
      rw [Handler_of_inference_error env body err bot message chat hbot hupd hchat htext hres]
      refine ⟨rfl, [Effect.botSend bot { ChatID := chat.ID, Text := errorText }], rfl, ?_⟩
      intro chat2 h
      cases h
      exact ⟨errorText, rfl, Or.inr ⟨⟨err, rfl⟩, rfl⟩⟩
    | ok response =>
      rw [Handler_of_inference_ok env body response bot message chat hbot hupd hchat htext hres]
      refine ⟨rfl, [Effect.botSend bot { ChatID := chat.ID, Text := response }], rfl, ?_⟩
      intro chat2 h
      cases h
      exact ⟨response, rfl, Or.inl rfl⟩

/-- Witness of C7: the text `/start now` from chat 7, which only begins with
`/start`: one inference call with the whole text as `inputs`, then the
reply. -/
theorem Handler_nontrigger_one_inference_call_witness :
    inferenceCalls (Handler helloEnv startNowBody).trace
      = [{ Method := "POST"
           URL := "https://api-inference.huggingface.co/models/google/flan-t5-large"
           Header := [("Authorization", "Bearer " ++ helloEnv.HF_API_TOKEN),
                      ("Content-Type", "application/json")]
           Body := { inputs := "/start now"
                     parameters := { max_length := 150, temperature := 0.7, top_p := 0.85 } } }] ∧
    ∃ reply,
      outbound (Handler helloEnv startNowBody).trace
        = [Effect.clientDo { Timeout := 30 } (inferenceRequest helloEnv "/start now"),
           Effect.botSend sampleBot { ChatID := 7, Text := reply }] ∧
      ((getAIResponse helloEnv "/start now").2 = .ok reply ∨
        ((∃ err, (getAIResponse helloEnv "/start now").2 = .error err) ∧
          reply = errorText)) := by
  have h := Handler_nontrigger_one_inference_call helloEnv startNowBody sampleBot
    { Chat := some { ID := 7 }, Text := "/start now" } rfl rfl (by decide)
  obtain ⟨hcalls, rest, hout, hrest⟩ := h
  obtain ⟨reply, hreply, hres⟩ := hrest { ID := 7 } rfl
  refine ⟨hcalls, reply, ?_, hres⟩
  rw [hout, hreply]

/-- C9, as the code has it: for a status-200 response that decodes, `getAIResponse`
returns no error exactly when the decoded array is non-empty and its first
element has a non-empty `generated_text`. -/
theorem getAIResponse_usable_iff_first_nonempty
    (env : Env) (inputText : String) (resp : Response) (aiResponse : AIResponse)
    (hcall : env.clientDo (inferenceRequest env inputText) = .ok resp)
    (hstatus : resp.StatusCode = 200)
    (hdec : env.decodeAIResponse resp.Body = .ok aiResponse) :
    (∃ s, (getAIResponse env inputText).2 = .ok s) ↔
      ∃ first rest, aiResponse = first :: rest ∧ first.GeneratedText ≠ "" := by
  constructor
  · rintro ⟨s, hs⟩
    obtain ⟨resp2, first, rest, hcall2, -, hdec2, hne, -⟩ :=
      (getAIResponse_ok_iff env inputText s).1 hs
    rw [hcall] at hcall2
    cases hcall2
    rw [hdec] at hdec2
    cases hdec2
    exact ⟨first, rest, rfl, hne⟩
  · rintro ⟨first, rest, rfl, hne⟩
    exact ⟨first.GeneratedText,
      (getAIResponse_ok_iff env inputText first.GeneratedText).2
        ⟨resp, first, rest, hcall, hstatus, hdec, hne, rfl⟩⟩

/-- Witness of C9 as amended: the response with the one candidate `Hello!`. -/
theorem getAIResponse_usable_iff_first_nonempty_witness :
    (∃ s, (getAIResponse helloEnv "hi").2 = .ok s) ↔
      ∃ first rest, [({ GeneratedText := "Hello!" } : AIResponseItem)] = first :: rest ∧
        first.GeneratedText ≠ "" :=
  getAIResponse_usable_iff_first_nonempty helloEnv "hi"
    { StatusCode := 200, Body := helloJSON } [{ GeneratedText := "Hello!" }] rfl rfl rfl

/-- Counterexample to C9 as stated: the status-200 response that decodes to an
empty first candidate followed by the candidate `hi` has a candidate with
non-empty text, and `getAIResponse` returns an error on it. -/
theorem getAIResponse_later_candidate_not_used :
    emptyThenHiEnv.clientDo (inferenceRequest emptyThenHiEnv "hello")
      = .ok { StatusCode := 200, Body := emptyThenHiJSON } ∧
    emptyThenHiEnv.decodeAIResponse emptyThenHiJSON
      = .ok [{ GeneratedText := "" }, { GeneratedText := "hi" }] ∧
    (∃ c ∈ [({ GeneratedText := "" } : AIResponseItem), { GeneratedText := "hi" }],
      c.GeneratedText ≠ "") ∧
    (getAIResponse emptyThenHiEnv "hello").2 = .error "no text in AI response" := by
  refine ⟨rfl, rfl, ⟨{ GeneratedText := "hi" }, ?_, ?_⟩, rfl⟩
  · simp
  · decide

/-- C10, as the code has it: on every run the handler sends at most one chat
message.  With the bot client constructed and an update whose message, if it
has one, carries a chat, it sends none exactly when the body does not decode
or the update has no message object; otherwise it sends exactly one, to the
chat of the event, and when the text is not `/start` the inference call comes
first: the calls that leave the process are the inference call and then the
message. -/
theorem Handler_at_most_one_message (env : Env) (body : String) :
    (sent (Handler env body).trace).length ≤ 1 ∧
    ∀ bot, env.NewBotAPI env.TELEGRAM_TOKEN = .ok bot →
      ((∀ message, env.decodeUpdate body = .ok { Message := some message } →
          message.Chat ≠ none) →
        (sent (Handler env body).trace = [] ↔
          ((∃ err, env.decodeUpdate body = .error err) ∨
            env.decodeUpdate body = .ok { Message := none }))) ∧
      ∀ message chat, env.decodeUpdate body = .ok { Message := some message } →
        message.Chat = some chat →
        (∃ text, sent (Handler env body).trace = [{ ChatID := chat.ID, Text := text }]) ∧
        (message.Text ≠ "/start" →
          ∃ text, outbound (Handler env body).trace
            = [Effect.clientDo { Timeout := 30 } (inferenceRequest env message.Text),
               Effect.botSend bot { ChatID := chat.ID, Text := text }]) := by
  cases hbot : env.NewBotAPI env.TELEGRAM_TOKEN with
  | error e =>
    rw [Handler_of_bot_error env body e hbot]
    exact ⟨by simp [sent], fun bot h => by cases h⟩
  | ok bot =>
    cases hupd : env.decodeUpdate body with
    | error e =>
      rw [Handler_of_decode_error env body e bot hbot hupd]
      refine ⟨by simp [sent], fun bot2 _ =>
        ⟨fun _ => ⟨fun _ => Or.inl ⟨e, rfl⟩, fun _ => rfl⟩, ?_⟩⟩
      intro message chat h
      cases h
    | ok update =>
      obtain ⟨m⟩ := update
      cases m with
      | none =>
        rw [Handler_of_no_message env body bot hbot hupd]
        refine ⟨by simp [sent], fun bot2 _ =>
          ⟨fun _ => ⟨fun _ => Or.inr rfl, fun _ => rfl⟩, ?_⟩⟩
        intro message chat h
        cases h
      | some message =>
        cases hchat : message.Chat with
        | none =>
          have hnone : sent (Handler env body).trace = [] := by
            by_cases htext : message.Text = "/start"
            · rw [Handler_of_start_no_chat env body bot message hbot hupd hchat htext]
              rfl
            · cases hres : (getAIResponse env message.Text).2 with
              | error err =>
                rw [Handler_of_inference_error_no_chat env body err bot message hbot hupd
                  hchat htext hres]
                rfl
              | ok response =>
                rw [Handler_of_inference_ok_no_chat env body response bot message hbot hupd
                  hchat htext hres]
                rfl
          refine ⟨by rw [hnone]; simp, fun bot2 _ => ⟨fun hall => ?_, ?_⟩⟩
          · exact absurd hchat (hall message rfl)
          · intro message2 chat2 h2 hchat2
            cases h2
            rw [hchat] at hchat2
            cases hchat2
        | some chat =>
          have key : (∃ text, sent (Handler env body).trace
                = [{ ChatID := chat.ID, Text := text }]) ∧
              (message.Text ≠ "/start" →
                ∃ text, outbound (Handler env body).trace
                  = [Effect.clientDo { Timeout := 30 } (inferenceRequest env message.Text),
                     Effect.botSend bot { ChatID := chat.ID, Text := text }]) := by
            by_cases htext : message.Text = "/start"
            · rw [Handler_of_start env body bot message chat hbot hupd hchat htext]
              exact ⟨⟨welcomeText, rfl⟩, fun h => absurd htext h⟩
            · cases hres : (getAIResponse env message.Text).2 with
              | error err =>
                rw [Handler_of_inference_error env body err bot message chat hbot hupd hchat
                  htext hres]
                exact ⟨⟨errorText, rfl⟩, fun _ => ⟨errorText, rfl⟩⟩
              | ok response =>
                rw [Handler_of_inference_ok env body response bot message chat hbot hupd hchat
                  htext hres]
                exact ⟨⟨response, rfl⟩, fun _ => ⟨response, rfl⟩⟩
          obtain ⟨text, htext⟩ := key.1
          refine ⟨by rw [htext]; simp, ?_⟩
          intro bot2 hbot2
          cases hbot2
          refine ⟨fun _ => ⟨fun h => ?_, fun h => ?_⟩, ?_⟩
          · rw [htext] at h
            exact absurd h (List.cons_ne_nil _ _)
          · rcases h with ⟨e, he⟩ | he
            · cases he
            · cases he
          · intro message2 chat2 h2 hchat2
            cases h2
            rw [hchat] at hchat2
            cases hchat2
            exact key

/-- Witness of C10 as amended: the text `hi` from chat 7 with the answer `Hello!`:
the one message of the update carries a chat, a message is sent, there is
exactly one, and it is sent after the inference call. -/
theorem Handler_at_most_one_message_witness :
    (sent (Handler helloEnv hiBody).trace).length ≤ 1 ∧
    (sent (Handler helloEnv hiBody).trace = [] ↔
      ((∃ err, helloEnv.decodeUpdate hiBody = .error err) ∨
        helloEnv.decodeUpdate hiBody = .ok { Message := none })) ∧
    (∃ text, sent (Handler helloEnv hiBody).trace = [{ ChatID := 7, Text := text }]) ∧
    ∃ text, outbound (Handler helloEnv hiBody).trace
      = [Effect.clientDo { Timeout := 30 } (inferenceRequest helloEnv "hi"),
         Effect.botSend sampleBot { ChatID := 7, Text := text }] :=
  ⟨(Handler_at_most_one_message helloEnv hiBody).1,
   ((Handler_at_most_one_message helloEnv hiBody).2 sampleBot rfl).1
      (fun message h => by
        have hdec : helloEnv.decodeUpdate hiBody
            = .ok { Message := some { Chat := some { ID := 7 }, Text := "hi" } } := rfl
        rw [hdec] at h
        cases h
        exact Option.some_ne_none _),
   (((Handler_at_most_one_message helloEnv hiBody).2 sampleBot rfl).2
      { Chat := some { ID := 7 }, Text := "hi" } { ID := 7 } rfl rfl).1,
   (((Handler_at_most_one_message helloEnv hiBody).2 sampleBot rfl).2
      { Chat := some { ID := 7 }, Text := "hi" } { ID := 7 } rfl rfl).2 (by decide)⟩

/-- Counterexample to C10 as stated, on two runs.  The text `hi` in a message
without a `chat` object, with the bot client constructed: the body decodes,
the update has a message object, and the handler panics at line 65 with no
message sent.  The text `hi` from chat 7 when the bot client cannot be built:
the body would decode to an update with a message object, and `log.Fatal`
ends the run with no message sent. -/
theorem Handler_zero_messages_with_message_object :
    (helloEnv.NewBotAPI helloEnv.TELEGRAM_TOKEN = .ok sampleBot ∧
      helloEnv.decodeUpdate hiNoChatBody
        = .ok { Message := some { Chat := none, Text := "hi" } } ∧
      sent (Handler helloEnv hiNoChatBody).trace = [] ∧
      (Handler helloEnv hiNoChatBody).exit = .panicked nilDereference) ∧
    (noTokenEnv.decodeUpdate hiBody
        = .ok { Message := some { Chat := some { ID := 7 }, Text := "hi" } } ∧
      sent (Handler noTokenEnv hiBody).trace = [] ∧
      (Handler noTokenEnv hiBody).exit = .osExit 1) :=
  ⟨⟨rfl, rfl, rfl, rfl⟩, ⟨rfl, rfl, rfl⟩⟩

end TelegramBot
